import Mathlib

/-!
Shallow embedding of `annual_engine.py` (super-ultra-annual-leave-calculator).

Python `float` values are modelled as `ℚ` (the engine's arithmetic is plain
field arithmetic plus `floor`/`ceil`/truncation, all exact on rationals),
Python `int` as `ℤ`, Python strings as Lean `String` (with explicit
`List Char` processing mirroring `str.strip` and `re.findall(r"\d+", ...)`).
Python's truthiness test `x or y` on a number is modelled as
`if x = 0 then y else x`, and on a string as `if x = "" then y else x`.
-/

namespace AnnualEngine

/-- `ServiceProfile` dataclass: service/attendance summary. -/
structure ServiceProfile where
  hire_date : String
  base_date : String
  service_years : ℚ
  full_years : ℤ
  attendance_rate : ℚ
  full_months : ℤ
deriving Repr, DecidableEq

/-- `WageProfile` dataclass: data needed for the daily-equivalent wage. -/
structure WageProfile where
  wage_type : String
  wage_amount : ℚ
  hours_per_day : ℚ
  monthly_work_days : ℚ
deriving Repr, DecidableEq

/-- `WageProfile.daily_wage`: the derived one-day wage.  Mirrors the Python
method branch for branch (`hourly`, `daily`, `monthly`, fall-through 0). -/
def WageProfile.daily_wage (w : WageProfile) : ℚ :=
  if w.wage_type = "hourly" then
    if w.wage_amount > 0 ∧ w.hours_per_day > 0 then w.wage_amount * w.hours_per_day
    else 0
  else if w.wage_type = "daily" then
    w.wage_amount
  else if w.wage_type = "monthly" then
    if w.wage_amount > 0 ∧ w.monthly_work_days > 0 then w.wage_amount / w.monthly_work_days
    else 0
  else 0

/-- `RuleProfile` dataclass: one rule set (defaults as in the Python source). -/
structure RuleProfile where
  id : String
  name : String
  grant_type : String
  first_year_max : ℤ := 11
  default_days_after_1y : ℤ := 26
  money_step : ℤ := 10
  money_mode : String := "floor"
deriving Repr, DecidableEq

/-- Python `str.strip` of leading whitespace, on the character list. -/
def lstripWs : List Char → List Char
  | [] => []
  | c :: rest => if c.isWhitespace then lstripWs rest else c :: rest

/-- Python `str.strip` of trailing whitespace, on the character list. -/
def rstripWs : List Char → List Char
  | [] => []
  | c :: rest =>
    let r := rstripWs rest
    if r = [] ∧ c.isWhitespace then [] else c :: r

/-- Python `str.strip` (both ends), on the character list. -/
def stripWs (cs : List Char) : List Char := lstripWs (rstripWs cs)

/-- Accumulator pass behind `re.findall(r"\d+", txt)` followed by `int(...)`:
scans the characters left to right, `acc` holds the decimal value of the run
of digits currently being read (`none` when not inside a run), and emits the
value of each maximal digit run in order. -/
def digitRunsAux : List Char → Option ℕ → List ℕ
  | [], none => []
  | [], some n => [n]
  | c :: rest, none =>
    if c.isDigit then digitRunsAux rest (some (c.toNat - 48))
    else digitRunsAux rest none
  | c :: rest, some n =>
    if c.isDigit then digitRunsAux rest (some (n * 10 + (c.toNat - 48)))
    else n :: digitRunsAux rest none

/-- The decimal values of the maximal digit runs of a character list, left to
right: `re.findall(r"\d+", txt)` mapped through `int`. -/
def digitRuns (cs : List Char) : List ℕ := digitRunsAux cs none

/-- `NiceRecord` dataclass: one attendance-record line. -/
structure NiceRecord where
  leave_type : String
  duration_raw : String
  hours_per_day : ℚ := 8
deriving Repr, DecidableEq

/-- Result dictionary of `NiceRecord.parse_duration`. -/
structure ParsedDuration where
  days : ℕ
  hours : ℕ
  minutes : ℕ
  total_minutes : ℚ
  total_hours : ℚ
deriving Repr, DecidableEq

/-- `NiceRecord.parse_duration`: strip the raw text, return all zeros when it
is empty, otherwise take the digit runs (first three are days/hours/minutes;
two runs mean days/hours; one run means days) and convert to total minutes
using `hours_per_day or 8` (Python truthiness: only an exact 0 defaults). -/
def NiceRecord.parse_duration (r : NiceRecord) : ParsedDuration :=
  let txt := stripWs r.duration_raw.data
  if txt = [] then ⟨0, 0, 0, 0, 0⟩
  else
    let nums := digitRuns txt
    let dhm : ℕ × ℕ × ℕ :=
      if 3 ≤ nums.length then (nums.getD 0 0, nums.getD 1 0, nums.getD 2 0)
      else if nums.length = 2 then (nums.getD 0 0, nums.getD 1 0, 0)
      else if nums.length = 1 then (nums.getD 0 0, 0, 0)
      else (0, 0, 0)
    let d := dhm.1
    let h := dhm.2.1
    let m := dhm.2.2
    let hpd : ℚ := if r.hours_per_day = 0 then 8 else r.hours_per_day
    let total_minutes : ℚ := ((d : ℚ) * hpd + (h : ℚ)) * 60 + (m : ℚ)
    ⟨d, h, m, total_minutes, total_minutes / 60⟩

/-- One entry of the `by_type` grouping dictionary in
`summarize_nice_records`: category label, occurrence count, accumulated total
minutes, and the hours-per-day captured from the record that created the
entry.  The Python function formats each of these entries into a display
dictionary (`sum_d_h_m`, `sum_hours_decimal`, `converted_days_hours`) whose
numbers are derived from exactly these fields; the claims under proof concern
the grouping, ordering and totals, carried verbatim by this structure. -/
structure Group where
  leave_type : String
  count : ℕ
  total_minutes : ℚ
  hours_per_day : ℚ
deriving Repr, DecidableEq

/-- The group key of a record: `rec.leave_type.strip() or "미지정"`. -/
def NiceRecord.groupKey (rec : NiceRecord) : String :=
  let t := String.mk (stripWs rec.leave_type.data)
  if t = "" then "미지정" else t

/-- One step of the `by_type` dictionary update in `summarize_nice_records`:
increments the first (and only) entry with the record's key, adding the
record's parsed total minutes, or appends a fresh entry at the end (Python
dictionaries keep insertion order and hold each key once). -/
def addRecord (key : String) (tm hpd : ℚ) : List Group → List Group
  | [] => [⟨key, 1, tm, hpd⟩]
  | g :: gs =>
    if g.leave_type = key then
      ⟨g.leave_type, g.count + 1, g.total_minutes + tm, g.hours_per_day⟩ :: gs
    else
      g :: addRecord key tm hpd gs

/-- `summarize_nice_records`, up to presentation: folds the records into the
`by_type` grouping and returns the groups sorted by category label
(`sorted(by_type.items(), key=lambda x: x[0])`). -/
def summarize_nice_records (records : List NiceRecord) : List Group :=
  let grouped := records.foldl
    (fun gs rec =>
      addRecord rec.groupKey rec.parse_duration.total_minutes
        (if rec.hours_per_day = 0 then 8 else rec.hours_per_day) gs)
    []
  grouped.insertionSort (fun a b => a.leave_type ≤ b.leave_type)

/-- Result dictionary of `suggest_annual_days`. -/
structure SuggestionResult where
  suggested_days : Option ℚ
  description : String
deriving Repr, DecidableEq

/-- `suggest_annual_days`: rule set plus service summary to suggested annual
leave days and rationale text.  The rationale strings keep the Python literal
text; numbers are rendered with `toString` (Python's float formatting differs
only in numeral rendering, which no claim depends on).  Python `//` on ints
is floor division, hence `Int.fdiv`. -/
def suggest_annual_days (rule : RuleProfile) (svc : ServiceProfile) : SuggestionResult :=
  let full_years := svc.full_years
  let rate := svc.attendance_rate
  let full_months := svc.full_months
  if rule.grant_type = "law_basic" then
    if full_years < 1 then
      let s : ℤ := min full_months rule.first_year_max
      ⟨some (s : ℚ),
        "법정 기본형: 1년 미만, 월 개근 " ++ toString full_months ++ "개월 → " ++
          toString s ++ "일 (최대 " ++ toString rule.first_year_max ++ "일 예시)"⟩
    else if rate < 80 then
      ⟨some (full_months : ℚ),
        "법정 기본형: 출근율 " ++ toString rate ++ "% (80% 미만) → 월 개근 " ++
          toString full_months ++ "개월 = " ++ toString full_months ++ "일"⟩
    else
      let extra : ℤ := max 0 (min 10 ((full_years - 1).fdiv 2))
      ⟨some ((15 + extra : ℤ) : ℚ),
        "법정 기본형: 근속 " ++ toString full_years ++ "년 / 출근율 " ++ toString rate ++
          "% → 기본 15일 + 가산 " ++ toString extra ++ "일 = " ++
          toString (15 + extra) ++ "일 (예시)"⟩
  else if rule.grant_type = "gw_cba_school" ∨ rule.grant_type = "gw_cba_institute" then
    if full_years < 1 then
      let s : ℤ := min full_months rule.first_year_max
      ⟨some (s : ℚ),
        "강원 CBA 샘플: 1년 미만, 월 개근 " ++ toString full_months ++ "개월 → " ++
          toString s ++ "일 (최대 " ++ toString rule.first_year_max ++ "일 예시)"⟩
    else if rate ≥ 80 then
      ⟨some (rule.default_days_after_1y : ℚ),
        "강원 CBA 샘플: 근속 " ++ toString full_years ++ "년 / 출근율 " ++ toString rate ++
          "% → " ++ toString rule.default_days_after_1y ++
          "일 (grant_rules.default_days_after_1y 예시 값)"⟩
    else
      ⟨some (full_months : ℚ),
        "강원 CBA 샘플: 출근율 " ++ toString rate ++ "% (80% 미만) → 월 개근 " ++
          toString full_months ++ "개월 = " ++ toString full_months ++ "일"⟩
  else if rule.grant_type = "external_days" then
    ⟨none,
      "통상임금 지침 반영형: 연차일수는 다른 모듈에서 계산한 값을 그대로 쓰고, 이 모듈에서는 수당만 계산합니다."⟩
  else if rule.grant_type = "manual_only" then
    ⟨none, "커스텀: 부여 연차일수는 사용자가 직접 입력해야 합니다."⟩
  else
    ⟨some 0, ""⟩

/-- `round_money`: truncate / round / raise an amount to a step.  A
non-positive amount returns 0 before anything else; a step below 1 is
coerced to 1.  Python's `int(tmp + 0.5)` truncates toward zero, but in the
`round` branch `tmp + 0.5 > 0` (the amount and step are positive there), so
it coincides with `Int.floor`; `1e-8` is the literal rational `1 / 10^8`. -/
def round_money (amount : ℚ) (step : ℤ) (mode : String) : ℚ :=
  if amount ≤ 0 then 0
  else
    let step := if step < 1 then 1 else step
    let base := amount / (step : ℚ)
    if mode = "round" then ((⌊base + 1 / 100000000 + 1 / 2⌋ : ℤ) : ℚ) * (step : ℚ)
    else if mode = "ceil" then ((⌈base⌉ : ℤ) : ℚ) * (step : ℚ)
    else ((⌊base⌋ : ℤ) : ℚ) * (step : ℚ)

/-- Result dictionary of `calc_unused_leave_payout`. -/
structure PayoutResult where
  granted_days : ℚ
  used_days : ℚ
  unused_days : ℚ
  daily_wage_raw : ℚ
  payout_raw : ℚ
  payout_rounded : ℚ
  rounding_step : ℤ
  rounding_mode : String
deriving Repr, DecidableEq

/-- `calc_unused_leave_payout`: clamp negative day counts to zero, compute the
unused-day payout from the daily wage, and round it with the rule's step and
mode.  `rule.money_step or 10` and `rule.money_mode or "floor"` are Python
truthiness tests: only an exact 0 (resp. empty string) falls to the default. -/
def calc_unused_leave_payout (rule : RuleProfile) (granted_days used_days : ℚ)
    (wage_profile : WageProfile) : PayoutResult :=
  let granted := if granted_days < 0 then 0 else granted_days
  let used := if used_days < 0 then 0 else used_days
  let unused := if granted - used < 0 then 0 else granted - used
  let daily := wage_profile.daily_wage
  let payout_raw := unused * daily
  let step := if rule.money_step = 0 then 10 else rule.money_step
  let mode := if rule.money_mode = "" then "floor" else rule.money_mode
  let payout_rounded := round_money payout_raw step mode
  ⟨granted, used, unused, daily, payout_raw, payout_rounded, step, mode⟩

/-- The `rule_map` literal of `full_pipeline` together with
`rule_map.get(rule_id, rule_map["law_basic"])`: any unknown id falls back to
the statutory-basic rule. -/
def rule_map (rule_id : String) : RuleProfile :=
  if rule_id = "law_basic" then ⟨"law_basic", "법정 기본형", "law_basic", 11, 26, 10, "floor"⟩
  else if rule_id = "gw_school_cba" then
    ⟨"gw_school_cba", "학교근무자 CBA 예시", "gw_cba_school", 11, 26, 10, "floor"⟩
  else if rule_id = "gw_institute_cba" then
    ⟨"gw_institute_cba", "기관근무자 CBA 예시", "gw_cba_institute", 11, 26, 10, "floor"⟩
  else if rule_id = "gw_wage_guideline" then
    ⟨"gw_wage_guideline", "통상임금 지침형", "external_days", 11, 26, 10, "floor"⟩
  else if rule_id = "custom" then ⟨"custom", "커스텀", "manual_only", 11, 26, 10, "floor"⟩
  else ⟨"law_basic", "법정 기본형", "law_basic", 11, 26, 10, "floor"⟩

/-- The loosely-typed `service_dict` argument of `full_pipeline`: a field set
to `none` is absent from the Python dictionary and `dict.get` supplies the
default. -/
structure ServiceDict where
  hire_date : Option String := none
  base_date : Option String := none
  service_years : Option ℚ := none
  full_years : Option ℤ := none
  attendance_rate : Option ℚ := none
  full_months : Option ℤ := none
deriving Repr, DecidableEq

/-- The loosely-typed `wage_dict` argument of `full_pipeline`. -/
structure WageDict where
  wage_type : Option String := none
  wage_amount : Option ℚ := none
  hours_per_day : Option ℚ := none
  monthly_work_days : Option ℚ := none
deriving Repr, DecidableEq

/-- Aggregated result dictionary of `full_pipeline` (the wage entry carries
the derived `daily_wage` next to the profile fields). -/
structure PipelineResult where
  rule : RuleProfile
  service : ServiceProfile
  wage : WageProfile
  wage_daily_wage : ℚ
  suggestion : SuggestionResult
  payout : PayoutResult
deriving Repr, DecidableEq

/-- `full_pipeline`: rule lookup, profile construction with `dict.get`
defaults, suggestion and payout in one call. -/
def full_pipeline (rule_id : String) (service_dict : ServiceDict) (wage_dict : WageDict)
    (granted_days used_days : ℚ) : PipelineResult :=
  let rule := rule_map rule_id
  let svc : ServiceProfile :=
    ⟨service_dict.hire_date.getD "", service_dict.base_date.getD "",
      service_dict.service_years.getD 0, service_dict.full_years.getD 0,
      service_dict.attendance_rate.getD 0, service_dict.full_months.getD 0⟩
  let wage : WageProfile :=
    ⟨wage_dict.wage_type.getD "hourly", wage_dict.wage_amount.getD 0,
      wage_dict.hours_per_day.getD 0, wage_dict.monthly_work_days.getD 0⟩
  ⟨rule, svc, wage, wage.daily_wage, suggest_annual_days rule svc,
    calc_unused_leave_payout rule granted_days used_days wage⟩

/-! ## Helper lemmas -/

/-- `round_money` with a positive amount and an uncoerced step, branch by mode. -/
theorem round_money_pos_eq (amount : ℚ) (step : ℤ) (mode : String)
    (ha : 0 < amount) (hs : ¬ step < 1) :
    round_money amount step mode =
      if mode = "round" then
        ((⌊amount / (step : ℚ) + 1 / 100000000 + 1 / 2⌋ : ℤ) : ℚ) * (step : ℚ)
      else if mode = "ceil" then ((⌈amount / (step : ℚ)⌉ : ℤ) : ℚ) * (step : ℚ)
      else ((⌊amount / (step : ℚ)⌋ : ℤ) : ℚ) * (step : ℚ) := by
  unfold round_money
  rw [if_neg (not_le.mpr ha)]
  simp only [if_neg hs]

/-- A step below 1 is coerced to 1 inside `round_money`. -/
theorem round_money_step_coerce (amount : ℚ) (step : ℤ) (mode : String) (hs : step < 1) :
    round_money amount step mode = round_money amount 1 mode := by
  unfold round_money
  simp only [if_pos hs]
  norm_num

/-- The total minutes of a parsed duration always satisfy the conversion
formula over the parsed day/hour/minute fields, with the divisor the code
actually uses (`hours_per_day or 8`). -/
theorem parse_duration_total_formula (r : NiceRecord) :
    r.parse_duration.total_minutes =
      ((r.parse_duration.days : ℚ)
          * (if r.hours_per_day = 0 then 8 else r.hours_per_day)
        + (r.parse_duration.hours : ℚ)) * 60 + (r.parse_duration.minutes : ℚ) := by
  unfold NiceRecord.parse_duration
  by_cases h : stripWs r.duration_raw.data = []
  · simp [h]
  · simp [h]

/-- A whitespace character is never a decimal digit. -/
theorem isWhitespace_not_isDigit (c : Char) (h : c.isWhitespace = true) : c.isDigit = false := by
  simp only [Char.isWhitespace, Bool.or_eq_true, decide_eq_true_eq] at h
  rcases h with ((h | h) | h) | h <;> subst h <;> decide

/-- Stripping leading whitespace does not change the digit runs. -/
theorem digitRunsAux_lstrip (cs : List Char) :
    digitRunsAux (lstripWs cs) none = digitRunsAux cs none := by
  induction cs with
  | nil => rfl
  | cons c rest ih =>
    by_cases h : c.isWhitespace
    · have hnd : c.isDigit = false := isWhitespace_not_isDigit c h
      rw [lstripWs, if_pos h, ih]
      simp [digitRunsAux, hnd]
    · rw [lstripWs, if_neg h]

/-- Stripping trailing whitespace does not change the digit runs, whatever
run is currently being accumulated. -/
theorem digitRunsAux_rstrip (cs : List Char) (acc : Option ℕ) :
    digitRunsAux (rstripWs cs) acc = digitRunsAux cs acc := by
  induction cs generalizing acc with
  | nil => rfl
  | cons c rest ih =>
    simp only [rstripWs]
    by_cases h : rstripWs rest = [] ∧ c.isWhitespace
    · rw [if_pos h]
      have hnd : c.isDigit = false := isWhitespace_not_isDigit c h.2
      have hrest : digitRunsAux rest none = [] := by rw [← ih none, h.1]; rfl
      cases acc with
      | none => simp [digitRunsAux, hnd, hrest]
      | some n => simp [digitRunsAux, hnd, hrest]
    · rw [if_neg h]
      cases acc with
      | none => by_cases hd : c.isDigit <;> simp [digitRunsAux, hd, ih]
      | some n => by_cases hd : c.isDigit <;> simp [digitRunsAux, hd, ih]

/-- `str.strip` only removes leading and trailing whitespace, so the digit
runs of the stripped text are those of the original text. -/
theorem digitRuns_strip (cs : List Char) : digitRuns (stripWs cs) = digitRuns cs := by
  unfold digitRuns stripWs
  rw [digitRunsAux_lstrip, digitRunsAux_rstrip]

instance : IsTotal Group (fun a b => a.leave_type ≤ b.leave_type) :=
  ⟨fun a b => le_total a.leave_type b.leave_type⟩

instance : IsTrans Group (fun a b => a.leave_type ≤ b.leave_type) :=
  ⟨fun _ _ _ hab hbc => le_trans hab hbc⟩

/-- Folding one record into the grouping adds exactly its parsed total
minutes to the groups' accumulated total. -/
theorem addRecord_sum (key : String) (tm hpd : ℚ) (gs : List Group) :
    ((addRecord key tm hpd gs).map Group.total_minutes).sum
      = (gs.map Group.total_minutes).sum + tm := by
  induction gs with
  | nil => simp [addRecord]
  | cons g gs ih =>
    by_cases h : g.leave_type = key
    · simp only [addRecord, if_pos h, List.map_cons, List.sum_cons]
      ring
    · simp only [addRecord, if_neg h, List.map_cons, List.sum_cons, ih]
      ring

/-- The grouping fold conserves total minutes: the groups' accumulated
totals sum to the initial groups' totals plus all records' parsed totals. -/
theorem grouped_sum (records : List NiceRecord) (init : List Group) :
    ((records.foldl
        (fun gs rec =>
          addRecord rec.groupKey rec.parse_duration.total_minutes
            (if rec.hours_per_day = 0 then 8 else rec.hours_per_day) gs)
        init).map Group.total_minutes).sum
      = (init.map Group.total_minutes).sum
        + (records.map (fun r => r.parse_duration.total_minutes)).sum := by
  induction records generalizing init with
  | nil => simp
  | cons r rs ih =>
    simp only [List.foldl_cons, List.map_cons, List.sum_cons, ih, addRecord_sum]
    ring

/-! ## Claim theorems -/

/-- Claim C1: for every rule with grant type `law_basic` and every service
profile, the suggested days are `min full_months first_year_max` below one
full year, the raw `full_months` at one-plus years with attendance below 80,
and `15 + min 10 ((full_years - 1) / 2)` (floor division) at one-plus years
with attendance at least 80. -/
theorem C1_law_basic_suggestion (rule : RuleProfile) (svc : ServiceProfile)
    (hg : rule.grant_type = "law_basic") :
    (svc.full_years < 1 →
      (suggest_annual_days rule svc).suggested_days
        = some ((min svc.full_months rule.first_year_max : ℤ) : ℚ)) ∧
    (1 ≤ svc.full_years → svc.attendance_rate < 80 →
      (suggest_annual_days rule svc).suggested_days = some (svc.full_months : ℚ)) ∧
    (1 ≤ svc.full_years → 80 ≤ svc.attendance_rate →
      (suggest_annual_days rule svc).suggested_days
        = some ((15 + min 10 ((svc.full_years - 1).fdiv 2) : ℤ) : ℚ)) := by
  unfold suggest_annual_days
  rw [hg]
  refine ⟨fun h1 => ?_, fun h1 h2 => ?_, fun h1 h2 => ?_⟩
  · simp [h1]
  · simp [not_lt.mpr h1, h2]
  · have hx : 0 ≤ (svc.full_years - 1).fdiv 2 := Int.fdiv_nonneg (by omega) (by omega)
    have hmax : max 0 (min 10 ((svc.full_years - 1).fdiv 2))
        = min 10 ((svc.full_years - 1).fdiv 2) :=
      max_eq_right (le_min (by norm_num) hx)
    simp [not_lt.mpr h1, not_lt.mpr h2, hmax]

/-- Concrete instance of C1: three full years at 95% attendance suggest 16
days under the statutory-basic rule. -/
theorem C1_law_basic_suggestion_witness :
    (suggest_annual_days ⟨"law_basic", "법정 기본형", "law_basic", 11, 26, 10, "floor"⟩
        ⟨"", "", 3, 3, 95, 36⟩).suggested_days = some 16 := by
  have h := (C1_law_basic_suggestion
    ⟨"law_basic", "법정 기본형", "law_basic", 11, 26, 10, "floor"⟩
    ⟨"", "", 3, 3, 95, 36⟩ rfl).2.2 (by norm_num) (by norm_num)
  rw [h]
  decide

/-- Claim C2 as stated is false: the code dispatches on the tags
`gw_cba_school` / `gw_cba_institute`, so a rule whose grant type is the
spec's literal `cba_school` falls through every branch and suggests 0.0
instead of `min full_months first_year_max` (= 5 here). -/
theorem C2_counterexample :
    (suggest_annual_days ⟨"cba", "cba", "cba_school", 11, 26, 10, "floor"⟩
        ⟨"", "", 0, 0, 100, 5⟩).suggested_days = some 0 ∧
    ((some (0 : ℚ) : Option ℚ) ≠ some ((min (5 : ℤ) 11 : ℤ) : ℚ)) := by
  constructor
  · decide
  · decide

/-- Claim C2 amended: with the code's collective-agreement tags
`gw_cba_school` / `gw_cba_institute` (treated identically), the suggestion is
`min full_months first_year_max` below one full year, the flat
`default_days_after_1y` at one-plus years with attendance at least 80, and
`full_months` at one-plus years with attendance below 80. -/
theorem C2_cba_suggestion (rule : RuleProfile) (svc : ServiceProfile)
    (hg : rule.grant_type = "gw_cba_school" ∨ rule.grant_type = "gw_cba_institute") :
    (svc.full_years < 1 →
      (suggest_annual_days rule svc).suggested_days
        = some ((min svc.full_months rule.first_year_max : ℤ) : ℚ)) ∧
    (1 ≤ svc.full_years → 80 ≤ svc.attendance_rate →
      (suggest_annual_days rule svc).suggested_days
        = some (rule.default_days_after_1y : ℚ)) ∧
    (1 ≤ svc.full_years → svc.attendance_rate < 80 →
      (suggest_annual_days rule svc).suggested_days = some (svc.full_months : ℚ)) := by
  unfold suggest_annual_days
  rcases hg with h | h <;> rw [h] <;>
    refine ⟨fun h1 => ?_, fun h1 h2 => ?_, fun h1 h2 => ?_⟩
  · simp [h1]
  · simp [not_lt.mpr h1, h2]
  · simp [not_lt.mpr h1, not_le.mpr h2]
  · simp [h1]
  · simp [not_lt.mpr h1, h2]
  · simp [not_lt.mpr h1, not_le.mpr h2]

/-- Concrete instance of amended C2: five months of service under the school
CBA rule suggest 5 days. -/
theorem C2_cba_suggestion_witness :
    (suggest_annual_days ⟨"gw_school_cba", "학교근무자 CBA 예시", "gw_cba_school", 11, 26, 10, "floor"⟩
        ⟨"", "", 0, 0, 100, 5⟩).suggested_days = some 5 := by
  have h := (C2_cba_suggestion
    ⟨"gw_school_cba", "학교근무자 CBA 예시", "gw_cba_school", 11, 26, 10, "floor"⟩
    ⟨"", "", 0, 0, 100, 5⟩ (Or.inl rfl)).1 (by norm_num)
  rw [h]
  decide

/-- Claim C3 as stated is false: for wage type `daily` the code returns the
raw wage amount, so a negative daily amount yields a negative daily wage. -/
theorem C3_counterexample :
    WageProfile.daily_wage ⟨"daily", -5, 8, 22⟩ < 0 := by
  decide

/-- Claim C3 amended: the daily-equivalent wage is non-negative for every
wage type other than `daily` (non-positive amounts or denominators yield 0);
for `daily` it equals the raw wage amount, hence is non-negative exactly when
the amount is. -/
theorem C3_daily_wage_nonneg (w : WageProfile) :
    (w.wage_type ≠ "daily" → 0 ≤ w.daily_wage) ∧
    (w.wage_type = "daily" → w.daily_wage = w.wage_amount) := by
  constructor
  · intro h
    unfold WageProfile.daily_wage
    split_ifs with h1 h2 h3 h4
    · exact le_of_lt (mul_pos h2.1 h2.2)
    · exact le_refl 0
    · exact div_nonneg (le_of_lt h4.1) (le_of_lt h4.2)
    · exact le_refl 0
    · exact le_refl 0
  · intro h
    unfold WageProfile.daily_wage
    rw [h]
    simp

/-- Concrete instance of amended C3: a monthly wage profile with a negative
amount degrades to a zero (hence non-negative) daily wage. -/
theorem C3_daily_wage_nonneg_witness :
    0 ≤ WageProfile.daily_wage ⟨"monthly", -3, 8, 22⟩ :=
  (C3_daily_wage_nonneg ⟨"monthly", -3, 8, 22⟩).1 (by decide)

/-- Claim C4 as stated is false: with `money_step = 0` the Python truthiness
fallback `rule.money_step or 10` applies and reports step 10, not 1 (payout
15 at step 10 rounds to 10, confirming 10 was applied). -/
theorem C4_counterexample :
    (calc_unused_leave_payout ⟨"r", "r", "law_basic", 11, 26, 0, "floor"⟩ 2 1
        ⟨"daily", 15, 8, 22⟩).rounding_step = 10 ∧
    (calc_unused_leave_payout ⟨"r", "r", "law_basic", 11, 26, 0, "floor"⟩ 2 1
        ⟨"daily", 15, 8, 22⟩).payout_rounded = 10 ∧
    (10 : ℤ) ≠ 1 := by
  refine ⟨rfl, ?_, by decide⟩
  simp only [calc_unused_leave_payout, WageProfile.daily_wage, round_money]
  simp only [String.reduceEq, reduceIte]
  norm_num

/-- Claim C4 amended: a zero `money_step` is replaced by the default 10
before rounding (and reported as 10); a negative `money_step` is reported
unchanged as `rounding_step` while `round_money` internally coerces the
applied step to 1. -/
theorem C4_step_coercion (rule : RuleProfile) (g u : ℚ) (w : WageProfile) :
    (rule.money_step = 0 →
      (calc_unused_leave_payout rule g u w).rounding_step = 10 ∧
      (calc_unused_leave_payout rule g u w).payout_rounded =
        round_money (calc_unused_leave_payout rule g u w).payout_raw 10
          (if rule.money_mode = "" then "floor" else rule.money_mode)) ∧
    (rule.money_step < 0 →
      (calc_unused_leave_payout rule g u w).rounding_step = rule.money_step ∧
      (calc_unused_leave_payout rule g u w).payout_rounded =
        round_money (calc_unused_leave_payout rule g u w).payout_raw 1
          (if rule.money_mode = "" then "floor" else rule.money_mode)) := by
  constructor
  · intro h
    unfold calc_unused_leave_payout
    simp [h]
  · intro h
    have hne : rule.money_step ≠ 0 := by omega
    constructor
    · unfold calc_unused_leave_payout
      simp [if_neg hne]
    · unfold calc_unused_leave_payout
      simp only [if_neg hne]
      exact round_money_step_coerce _ _ _ (by omega)

/-- Concrete instance of amended C4: a rule with `money_step = -7` reports
`rounding_step = -7` while the payout is rounded with step 1. -/
theorem C4_step_coercion_witness :
    (calc_unused_leave_payout ⟨"r", "r", "law_basic", 11, 26, -7, "floor"⟩ 2 1
        ⟨"daily", 15, 8, 22⟩).rounding_step = -7 ∧
    (calc_unused_leave_payout ⟨"r", "r", "law_basic", 11, 26, -7, "floor"⟩ 2 1
        ⟨"daily", 15, 8, 22⟩).payout_rounded =
      round_money (calc_unused_leave_payout ⟨"r", "r", "law_basic", 11, 26, -7, "floor"⟩ 2 1
        ⟨"daily", 15, 8, 22⟩).payout_raw 1 "floor" := by
  have h := (C4_step_coercion ⟨"r", "r", "law_basic", 11, 26, -7, "floor"⟩ 2 1
    ⟨"daily", 15, 8, 22⟩).2 (by decide)
  exact ⟨h.1, h.2⟩

/-- Claim C5: for positive step and amount, flooring never exceeds the amount
and ceiling never falls below it; any non-positive amount rounds to exactly
0 under every step and mode. -/
theorem C5_round_money_bounds (amount : ℚ) (step : ℤ) (mode : String) :
    (0 < step → 0 < amount →
      round_money amount step "floor" ≤ amount ∧ amount ≤ round_money amount step "ceil") ∧
    (amount ≤ 0 → round_money amount step mode = 0) := by
  constructor
  · intro hs ha
    have hs1 : ¬ step < 1 := by omega
    have hsQ : (0 : ℚ) < (step : ℚ) := by exact_mod_cast hs
    constructor
    · rw [round_money_pos_eq amount step "floor" ha hs1]
      simp only [String.reduceEq, reduceIte]
      calc ((⌊amount / (step : ℚ)⌋ : ℤ) : ℚ) * (step : ℚ)
          ≤ amount / (step : ℚ) * (step : ℚ) :=
            mul_le_mul_of_nonneg_right (Int.floor_le _) (le_of_lt hsQ)
        _ = amount := div_mul_cancel₀ amount (ne_of_gt hsQ)
    · rw [round_money_pos_eq amount step "ceil" ha hs1]
      simp only [String.reduceEq, reduceIte]
      calc amount = amount / (step : ℚ) * (step : ℚ) :=
            (div_mul_cancel₀ amount (ne_of_gt hsQ)).symm
        _ ≤ ((⌈amount / (step : ℚ)⌉ : ℤ) : ℚ) * (step : ℚ) :=
            mul_le_mul_of_nonneg_right (Int.le_ceil _) (le_of_lt hsQ)
  · intro ha
    unfold round_money
    rw [if_pos ha]

/-- Concrete instance of C5: floor and ceiling of 25 at step 10 bracket 25,
and a negative amount rounds to 0. -/
theorem C5_round_money_bounds_witness :
    round_money 25 10 "floor" ≤ 25 ∧ (25 : ℚ) ≤ round_money 25 10 "ceil" ∧
    round_money (-3) 10 "xyz" = 0 := by
  have h1 := (C5_round_money_bounds 25 10 "xyz").1 (by norm_num) (by norm_num)
  have h2 := (C5_round_money_bounds (-3) 10 "xyz").2 (by norm_num)
  exact ⟨h1.1, h1.2, h2⟩

/-- Claim C6: `parse_duration` reads the runs of decimal digits of the raw
text left to right (whitespace stripping does not disturb them): three or
more runs give days/hours/minutes from the first three, two give days/hours
with zero minutes, one gives days alone, none (including empty or
whitespace-only text) gives all zeros; and the total minutes always equal
`(days * hours_per_day + hours) * 60 + minutes` for the record's (non-zero)
hours-per-day divisor, hence 0 whenever no digits occur. -/
theorem C6_parse_duration (lt raw : String) (hpd : ℚ) (hhpd : hpd ≠ 0) :
    ((NiceRecord.parse_duration ⟨lt, raw, hpd⟩).days,
      (NiceRecord.parse_duration ⟨lt, raw, hpd⟩).hours,
      (NiceRecord.parse_duration ⟨lt, raw, hpd⟩).minutes) =
      (match digitRuns raw.data with
        | d :: h :: m :: _ => (d, h, m)
        | [d, h] => (d, h, 0)
        | [d] => (d, 0, 0)
        | [] => (0, 0, 0)) ∧
    (NiceRecord.parse_duration ⟨lt, raw, hpd⟩).total_minutes =
      (((NiceRecord.parse_duration ⟨lt, raw, hpd⟩).days : ℚ) * hpd
          + ((NiceRecord.parse_duration ⟨lt, raw, hpd⟩).hours : ℚ)) * 60
        + ((NiceRecord.parse_duration ⟨lt, raw, hpd⟩).minutes : ℚ) := by
  constructor
  · have hstrip : digitRuns (stripWs raw.data) = digitRuns raw.data := digitRuns_strip _
    rw [← hstrip]
    unfold NiceRecord.parse_duration
    by_cases hemp : stripWs raw.data = []
    · rw [if_pos hemp, hemp]
      rfl
    · rw [if_neg hemp]
      rcases hn : digitRuns (stripWs raw.data) with _ | ⟨d, _ | ⟨h, _ | ⟨m, rest⟩⟩⟩ <;>
        simp [hn, List.getD]
  · have hf := parse_duration_total_formula ⟨lt, raw, hpd⟩
    rwa [if_neg hhpd] at hf

/-- Concrete instance of C6: the three digit runs of "0일 6시간 30분" parse as
0 days, 6 hours, 30 minutes, i.e. 390 total minutes at 8 hours per day. -/
theorem C6_parse_duration_witness :
    ((NiceRecord.parse_duration ⟨"연가", "0일 6시간 30분", 8⟩).days,
      (NiceRecord.parse_duration ⟨"연가", "0일 6시간 30분", 8⟩).hours,
      (NiceRecord.parse_duration ⟨"연가", "0일 6시간 30분", 8⟩).minutes) = (0, 6, 30) ∧
    (NiceRecord.parse_duration ⟨"연가", "0일 6시간 30분", 8⟩).total_minutes = 390 := by
  have hc := C6_parse_duration "연가" "0일 6시간 30분" 8 (by norm_num)
  constructor
  · rw [hc.1]
    rfl
  · rw [hc.2]
    have hd : (NiceRecord.parse_duration ⟨"연가", "0일 6시간 30분", 8⟩).days = 0 := rfl
    have hh : (NiceRecord.parse_duration ⟨"연가", "0일 6시간 30분", 8⟩).hours = 6 := rfl
    have hm : (NiceRecord.parse_duration ⟨"연가", "0일 6시간 30분", 8⟩).minutes = 30 := rfl
    rw [hd, hh, hm]
    norm_num

/-- Claim C7: the summary groups come out sorted by category label whatever
the input order was, and their accumulated total minutes sum to the parsed
total minutes of all input records. -/
theorem C7_summarize_sorted_and_total (records : List NiceRecord) :
    List.Pairwise (fun a b : Group => a.leave_type ≤ b.leave_type)
      (summarize_nice_records records) ∧
    ((summarize_nice_records records).map Group.total_minutes).sum
      = (records.map (fun r => r.parse_duration.total_minutes)).sum := by
  constructor
  · exact List.sorted_insertionSort _ _
  · unfold summarize_nice_records
    have hperm := (List.perm_insertionSort (fun a b : Group => a.leave_type ≤ b.leave_type)
      (records.foldl
        (fun gs rec =>
          addRecord rec.groupKey rec.parse_duration.total_minutes
            (if rec.hours_per_day = 0 then 8 else rec.hours_per_day) gs)
        [])).map Group.total_minutes
    rw [hperm.sum_eq, grouped_sum]
    simp

/-- Claim C8 as stated is false: `hours_per_day or 8` only defaults on an
exact 0 (Python falsiness), so a negative `hours_per_day` of -2 is used
as-is: the string "1" parses to -120 total minutes, not `1 * 8 * 60 = 480`. -/
theorem C8_counterexample :
    (NiceRecord.parse_duration ⟨"t", "1", -2⟩).total_minutes = -120 ∧
    ((-120 : ℚ) ≠ ((1 * 8 + 0) * 60 + 0 : ℚ)) := by
  constructor
  · have hf := parse_duration_total_formula ⟨"t", "1", -2⟩
    have hd : (NiceRecord.parse_duration ⟨"t", "1", -2⟩).days = 1 := rfl
    have hh : (NiceRecord.parse_duration ⟨"t", "1", -2⟩).hours = 0 := rfl
    have hm : (NiceRecord.parse_duration ⟨"t", "1", -2⟩).minutes = 0 := rfl
    rw [hd, hh, hm] at hf
    rw [hf]
    norm_num
  · norm_num

/-- Claim C8 amended: `parse_duration` substitutes 8 for the
hours-per-working-day divisor exactly when `hours_per_day` is 0; the record
then parses identically to the same record with `hours_per_day = 8`.
(Negative values are used as-is.) -/
theorem C8_hpd_zero_defaults (r : NiceRecord) (h : r.hours_per_day = 0) :
    r.parse_duration = NiceRecord.parse_duration ⟨r.leave_type, r.duration_raw, 8⟩ := by
  obtain ⟨lt, raw, hpd⟩ := r
  simp only at h
  subst h
  unfold NiceRecord.parse_duration
  norm_num

/-- Concrete instance of amended C8: a record with `hours_per_day = 0`
parses like the same record with the default 8. -/
theorem C8_hpd_zero_defaults_witness :
    NiceRecord.parse_duration ⟨"t", "1일 2시간 3분", 0⟩
      = NiceRecord.parse_duration ⟨"t", "1일 2시간 3분", 8⟩ :=
  C8_hpd_zero_defaults ⟨"t", "1일 2시간 3분", 0⟩ rfl

/-- Claim C9: the end-to-end example — statutory rule, one full year, twelve
months, 85% attendance, monthly wage 2,000,000 over 22 work days, 15 granted
and 10 used days — yields daily wage 2000000/22, 5 unused days, raw payout
5 * 2000000/22, and 454540 after flooring at step 10. -/
theorem C9_full_pipeline_example :
    (full_pipeline "law_basic" ⟨none, none, none, some 1, some 85, some 12⟩
        ⟨some "monthly", some 2000000, none, some 22⟩ 15 10).wage_daily_wage
      = 2000000 / 22 ∧
    (full_pipeline "law_basic" ⟨none, none, none, some 1, some 85, some 12⟩
        ⟨some "monthly", some 2000000, none, some 22⟩ 15 10).payout.unused_days = 5 ∧
    (full_pipeline "law_basic" ⟨none, none, none, some 1, some 85, some 12⟩
        ⟨some "monthly", some 2000000, none, some 22⟩ 15 10).payout.payout_raw
      = 5 * (2000000 / 22) ∧
    (full_pipeline "law_basic" ⟨none, none, none, some 1, some 85, some 12⟩
        ⟨some "monthly", some 2000000, none, some 22⟩ 15 10).payout.payout_rounded = 454540 ∧
    (full_pipeline "law_basic" ⟨none, none, none, some 1, some 85, some 12⟩
        ⟨some "monthly", some 2000000, none, some 22⟩ 15 10).payout.rounding_step = 10 ∧
    (full_pipeline "law_basic" ⟨none, none, none, some 1, some 85, some 12⟩
        ⟨some "monthly", some 2000000, none, some 22⟩ 15 10).payout.rounding_mode = "floor" := by
  refine ⟨?_, ?_, ?_, ?_, rfl, rfl⟩ <;>
    · simp only [full_pipeline, rule_map, calc_unused_leave_payout, WageProfile.daily_wage,
        Option.getD, round_money, String.reduceEq, reduceIte]
      norm_num

/-- Claim C10: a grant type outside the five dispatched tags falls through
every branch, leaving the initial values: suggested days 0.0 (a number, not
null) and an empty description. -/
theorem C10_unknown_grant_type (rule : RuleProfile) (svc : ServiceProfile)
    (h1 : rule.grant_type ≠ "law_basic") (h2 : rule.grant_type ≠ "gw_cba_school")
    (h3 : rule.grant_type ≠ "gw_cba_institute") (h4 : rule.grant_type ≠ "external_days")
    (h5 : rule.grant_type ≠ "manual_only") :
    suggest_annual_days rule svc = ⟨some 0, ""⟩ := by
  unfold suggest_annual_days
  simp [h1, h2, h3, h4, h5]

/-- Concrete instance of C10: an unrecognized grant type suggests 0.0 with an
empty description. -/
theorem C10_unknown_grant_type_witness :
    suggest_annual_days ⟨"x", "x", "mystery", 11, 26, 10, "floor"⟩ ⟨"", "", 2, 2, 90, 7⟩
      = ⟨some 0, ""⟩ :=
  C10_unknown_grant_type ⟨"x", "x", "mystery", 11, 26, 10, "floor"⟩ ⟨"", "", 2, 2, 90, 7⟩
    (by decide) (by decide) (by decide) (by decide) (by decide)

end AnnualEngine
